import Mathlib

/-!
Shallow embedding of the assignment-dashboard core logic: the
recommendation bucketer (`app/components/AssignmentRecommendations.tsx`),
the dashboard filter/sort pipeline (`app/dashboard/page.tsx`), the
priority labeller (`app/components/AssignmentCard.tsx`), the focus-planner
task generator and Pomodoro timer state machine (`SimpleFocusPlanner`),
and the urgency classifier of the Pomodoro page.

Conventions: JavaScript numbers are modelled as `Rat` (points, priority)
or `Int` (timestamps in milliseconds, ids); `null` becomes `Option.none`;
`Array.prototype.sort` (mandated stable by ES2019, with a `NaN`
comparator result treated as `+0`) is modelled by `List.insertionSort`
on the "comparator result is not positive" relation, which is stable in
the same sense; JavaScript falsiness of `0`, `""` and `null` is modelled
explicitly at each use site.
-/

/-- JavaScript Math.round: round half toward positive infinity. -/
def jsRound (q : ℚ) : ℤ := ⌊q + 1 / 2⌋

/-- JavaScript Math.ceil on a rational, as an integer. -/
def jsCeil (q : ℚ) : ℤ := ⌈q⌉

/-- JavaScript `x || d` for an optional number `x`: `null` and `0` are
falsy and give the default `d`. -/
def jsOrQ (x : Option ℚ) (d : ℚ) : ℚ :=
  match x with
  | none => d
  | some v => if v = 0 then d else v

/-- JavaScript `x || d` for an optional string: `null` and `""` are falsy. -/
def jsOrS (x : Option String) (d : String) : String :=
  match x with
  | none => d
  | some v => if v = "" then d else v

/-- Truthiness of an optional JavaScript number (`null` and `0` falsy). -/
def jsTruthyInt (x : Option ℤ) : Bool :=
  match x with
  | none => false
  | some v => v != 0

/-- Truthiness of an optional JavaScript string (`null` and `""` falsy). -/
def jsTruthyStr (x : Option String) : Bool :=
  match x with
  | none => false
  | some v => v != ""

/-- Milliseconds in one day. -/
def msPerDay : ℤ := 24 * 60 * 60 * 1000

namespace Recs

/-- Assignment record as declared in `AssignmentRecommendations.tsx`:
`due_at` is a nullable timestamp (the code converts the ISO string with
`new Date(..).getTime()`, modelled here as the millisecond value);
`points_possible` and `priority` are non-nullable numbers there. -/
structure Assignment where
  id : ℤ
  name : String
  description : String
  due_at : Option ℤ
  points_possible : ℚ
  priority : ℚ
  course_id : ℤ
  course_name : String
deriving DecidableEq

/-- Recommendation bucket as declared in `AssignmentRecommendations.tsx`. -/
structure Recommendation where
  title : String
  description : String
  assignments : List Assignment
  icon : String
deriving DecidableEq

/-- Timestamp used by the due-date comparator (`new Date(a.due_at!)`);
the code only applies it after filtering out `null` due dates. -/
def dueVal (a : Assignment) : ℤ := a.due_at.getD 0

/-- Relation under which the stable sort realises the comparator
`(a, b) => new Date(a.due_at!).getTime() - new Date(b.due_at!).getTime()`
(a sorts no later than b iff the comparator result is not positive). -/
def dueLe (a b : Assignment) : Prop := dueVal a ≤ dueVal b

instance : DecidableRel dueLe := fun a b => inferInstanceAs (Decidable (dueVal a ≤ dueVal b))

instance : IsTotal Assignment dueLe := ⟨fun a b => le_total (dueVal a) (dueVal b)⟩

instance : IsTrans Assignment dueLe := ⟨fun _ _ _ h1 h2 => le_trans h1 h2⟩

/-- Relation realising the comparator `(a, b) => b.priority - a.priority`
(descending by priority). -/
def prioGe (a b : Assignment) : Prop := b.priority ≤ a.priority

instance : DecidableRel prioGe := fun a b => inferInstanceAs (Decidable (b.priority ≤ a.priority))

instance : IsTotal Assignment prioGe := ⟨fun a b => le_total b.priority a.priority⟩

instance : IsTrans Assignment prioGe := ⟨fun _ _ _ h1 h2 => le_trans h2 h1⟩

/-- Line 64: `assignments.filter((a) => a.due_at)`. -/
def assignmentsWithDueDates (assignments : List Assignment) : List Assignment :=
  assignments.filter fun a => a.due_at.isSome

/-- Lines 67-70: `[...assignmentsWithDueDates].sort(byDueDateAscending)`. -/
def sortedByDueDate (assignments : List Assignment) : List Assignment :=
  List.insertionSort dueLe (assignmentsWithDueDates assignments)

/-- Lines 73-75: `[...assignments].sort((a, b) => b.priority - a.priority)`. -/
def sortedByPriority (assignments : List Assignment) : List Assignment :=
  List.insertionSort prioGe assignments

/-- Lines 78-85: assignments with a due date falling within 3 days of
`now`, from the due-date-sorted list, first 3. -/
def urgentAssignments (assignments : List Assignment) (now : ℤ) : List Assignment :=
  ((sortedByDueDate assignments).filter fun a =>
    a.due_at.isSome && decide (dueVal a - now < 3 * msPerDay)).take 3

/-- Lines 98-100: `sortedByPriority.filter((a) => a.priority > 7).slice(0, 3)`. -/
def highPriorityAssignments (assignments : List Assignment) : List Assignment :=
  ((sortedByPriority assignments).filter fun a => decide (7 < a.priority)).take 3

/-- Lines 113-115:
`assignments.filter((a) => a.points_possible < 10 && a.points_possible > 0).slice(0, 3)`. -/
def quickWins (assignments : List Assignment) : List Assignment :=
  (assignments.filter fun a =>
    decide (a.points_possible < 10) && decide (0 < a.points_possible)).take 3

/-- Lines 60-125 of `fetchRecommendations`: build the recommendation list,
pushing each bucket only when it is non-empty, in the fixed order
Urgent, High Impact, Quick Wins. `now` models the `new Date()` read at
line 63. -/
def generatedRecommendations (assignments : List Assignment) (now : ℤ) : List Recommendation :=
  (if 0 < (urgentAssignments assignments now).length then
    [{ title := "Urgent Assignments"
       description := "These assignments are due soon and should be prioritized"
       assignments := urgentAssignments assignments now
       icon := "🔥" }]
  else []) ++
  (if 0 < (highPriorityAssignments assignments).length then
    [{ title := "High Impact Assignments"
       description := "These assignments have the highest impact on your grade"
       assignments := highPriorityAssignments assignments
       icon := "⭐" }]
  else []) ++
  (if 0 < (quickWins assignments).length then
    [{ title := "Quick Wins"
       description := "These assignments can be completed quickly for easy points"
       assignments := quickWins assignments
       icon := "✅" }]
  else [])

end Recs

namespace Dashboard

/-- Assignment record as declared in `app/dashboard/page.tsx` (nullable
description, due date, points, priority, summary). -/
structure Assignment where
  id : ℤ
  name : String
  description : Option String
  due_at : Option ℤ
  points_possible : Option ℚ
  course_id : ℤ
  course_name : String
  priority : Option ℚ
  summary : Option String
deriving DecidableEq

/-- Course record as declared in `app/dashboard/page.tsx`. -/
structure Course where
  id : ℤ
  name : String
  code : String
deriving DecidableEq

/-- The three values of the dashboard `sortBy` state. -/
inductive SortKey where
  | priority
  | due_date
  | points
deriving DecidableEq

/-- Containment of one character sequence in another (JS `includes`). -/
def containsSeq (needle : List Char) : List Char → Bool
  | [] => needle.isEmpty
  | b :: bs => needle.isPrefixOf (b :: bs) || containsSeq needle bs

/-- Case-insensitive containment `hay.toLowerCase().includes(q)` where
`q` is the already-lowercased search query. -/
def lowerIncludes (hay q : String) : Bool :=
  containsSeq q.toLower.data hay.toLower.data

/-- Lines 148-166: the filter callback of `filteredAssignments`.
`selectedCourse` is truthy only when non-null and non-zero; a non-empty
search query must match the name, the course name, or a truthy
description, case-insensitively. -/
def passesFilter (selectedCourse : Option ℤ) (searchQuery : String) (a : Assignment) : Bool :=
  if jsTruthyInt selectedCourse && (a.course_id != selectedCourse.getD 0) then false
  else if searchQuery != "" then
    lowerIncludes a.name searchQuery.toLower ||
    lowerIncludes a.course_name searchQuery.toLower ||
    (jsTruthyStr a.description && lowerIncludes (a.description.getD "") searchQuery.toLower)
  else true

/-- Sort key of the `due_date` comparator (lines 171-174): a missing due
date becomes `Infinity`, modelled as the top element of `WithTop`. Two
missing due dates compare as `Infinity - Infinity = NaN`, which the
ECMAScript sort treats as `+0` (a tie); `⊤ ≤ ⊤` gives the same tie. -/
def dueKey (a : Assignment) : WithTop ℤ :=
  match a.due_at with
  | some t => (t : WithTop ℤ)
  | none => ⊤

/-- Relation realising the `due_date` comparator: ascending by `dueKey`. -/
def dueDateLe (a b : Assignment) : Prop := dueKey a ≤ dueKey b

instance : DecidableRel dueDateLe := fun a b => inferInstanceAs (Decidable (dueKey a ≤ dueKey b))

instance : IsTotal Assignment dueDateLe := ⟨fun a b => le_total (dueKey a) (dueKey b)⟩

instance : IsTrans Assignment dueDateLe := ⟨fun _ _ _ h1 h2 => le_trans h1 h2⟩

/-- Relation realising the `priority` comparator
`(b.priority || 0) - (a.priority || 0)` (descending, absent as 0). -/
def prioDescLe (a b : Assignment) : Prop := jsOrQ b.priority 0 ≤ jsOrQ a.priority 0

instance : DecidableRel prioDescLe :=
  fun a b => inferInstanceAs (Decidable (jsOrQ b.priority 0 ≤ jsOrQ a.priority 0))

/-- Relation realising the `points` comparator (descending, absent as 0). -/
def pointsDescLe (a b : Assignment) : Prop :=
  jsOrQ b.points_possible 0 ≤ jsOrQ a.points_possible 0

instance : DecidableRel pointsDescLe :=
  fun a b => inferInstanceAs (Decidable (jsOrQ b.points_possible 0 ≤ jsOrQ a.points_possible 0))

/-- The comparator selected by `sortBy` (lines 167-179), as a relation. -/
def sortRel (k : SortKey) : Assignment → Assignment → Prop :=
  match k with
  | .priority => prioDescLe
  | .due_date => dueDateLe
  | .points => pointsDescLe

instance instDecidableSortRel (k : SortKey) : DecidableRel (sortRel k) :=
  match k with
  | .priority => inferInstanceAs (DecidableRel prioDescLe)
  | .due_date => inferInstanceAs (DecidableRel dueDateLe)
  | .points => inferInstanceAs (DecidableRel pointsDescLe)

/-- Lines 146-179: `assignments.filter(...).sort(...)`; `.filter`
allocates a fresh array and `.sort` (stable) reorders that fresh array. -/
def filteredAssignments (assignments : List Assignment) (selectedCourse : Option ℤ)
    (searchQuery : String) (sortBy : SortKey) : List Assignment :=
  List.insertionSort (sortRel sortBy) (assignments.filter (passesFilter selectedCourse searchQuery))

/-- Dashboard component state touched by the two fetch callbacks. -/
structure FetchState where
  assignments : List Assignment
  courses : List Course
  loading : Bool
  error : Option String
deriving DecidableEq

/-- Outcome of one network call: the parsed JSON body, or a failure
(either a rejected promise or a non-2xx response, which the code turns
into a thrown error handled by the same catch block). -/
inductive FetchResult (α : Type) where
  | ok (data : α)
  | failure
deriving DecidableEq

/-- Lines 99-115, `fetchCourses`: on success replace the whole course
collection; on any failure set the error string and touch nothing else. -/
def fetchCoursesStep (s : FetchState) (r : FetchResult (List Course)) : FetchState :=
  match r with
  | .ok data => { s with courses := data }
  | .failure => { s with error := some "Failed to load courses" }

/-- Lines 118-140, `fetchAssignments`: set `loading` on entry; on success
replace the whole assignment collection and clear `loading`; on any
failure set the error string and clear `loading`, touching nothing else. -/
def fetchAssignmentsStep (s : FetchState) (r : FetchResult (List Assignment)) : FetchState :=
  let s1 := { s with loading := true }
  match r with
  | .ok data => { s1 with assignments := data, loading := false }
  | .failure => { s1 with error := some "Failed to load assignments", loading := false }

end Dashboard

/-- Mutable JavaScript array store: each cell is one array object; an
array reference is an index into the store. Models which array object a
mutating operation such as `Array.prototype.sort` acts on. -/
abbrev Heap (α : Type) : Type := List (List α)

namespace Heap

/-- Read the array object behind reference `i`. -/
def readCell (h : Heap α) (i : ℕ) : List α := (h[i]?).getD []

/-- Allocate a fresh array object (e.g. the result of `.filter` or of a
spread `[...xs]`) and return its reference. -/
def alloc (h : Heap α) (xs : List α) : Heap α × ℕ := (h ++ [xs], h.length)

/-- In-place `Array.prototype.sort` on the array behind reference `i`
(ES2019 stable sort, modelled by insertion sort). -/
def sortCell (h : Heap α) (i : ℕ) (r : α → α → Prop) [DecidableRel r] : Heap α :=
  h.set i (List.insertionSort r (readCell h i))

/-- Lines 146-179 of `app/dashboard/page.tsx` as heap operations: filter
the source array into a fresh array, sort that fresh array in place,
return the final heap and the derived view. -/
def runFilteredAssignments (h : Heap Dashboard.Assignment) (src : ℕ)
    (selectedCourse : Option ℤ) (searchQuery : String) (sortBy : Dashboard.SortKey) :
    Heap Dashboard.Assignment × List Dashboard.Assignment :=
  let p := alloc h ((readCell h src).filter (Dashboard.passesFilter selectedCourse searchQuery))
  let h2 := sortCell p.1 p.2 (Dashboard.sortRel sortBy)
  (h2, readCell h2 p.2)

end Heap

namespace FocusPlanner

/-- Assignment record as declared in `SimpleFocusPlanner` (nullable
due date, points and priority). -/
structure Assignment where
  id : ℤ
  name : String
  description : Option String
  due_at : Option ℤ
  points_possible : Option ℚ
  course_id : ℤ
  course_name : String
  priority : Option ℚ
  summary : Option String
deriving DecidableEq

/-- Task record produced by `generateDailyTasks`. -/
structure Task where
  id : ℤ
  name : String
  course_name : String
  description : String
  estimated_duration : ℤ
  due_at : Option ℤ
  priority : ℚ
  completed : Bool
deriving DecidableEq

/-- Relation realising the `generateDailyTasks` comparator (lines
145-160): null due dates last, then ascending by due date, ties and the
both-null case falling through to descending `priority || 5`. Holds iff
the comparator result is not positive. -/
def genCmpLe (a b : Assignment) : Bool :=
  match a.due_at, b.due_at with
  | none, some _ => false
  | some _, none => true
  | some da, some db =>
      if da < db then true
      else if db < da then false
      else decide (jsOrQ b.priority 5 ≤ jsOrQ a.priority 5)
  | none, none => decide (jsOrQ b.priority 5 ≤ jsOrQ a.priority 5)

/-- Lines 145-160: `[...assignmentsList].sort(comparator)`. -/
def sortedAssignments (assignmentsList : List Assignment) : List Assignment :=
  List.insertionSort (fun a b => genCmpLe a b = true) assignmentsList

/-- Line 163: `sortedAssignments.slice(0, 5)`. -/
def topAssignments (assignmentsList : List Assignment) : List Assignment :=
  (sortedAssignments assignmentsList).take 5

/-- Lines 166-175: convert one assignment to a task.
`estimated_duration` is
`Math.max(25, Math.min(50, Math.round((points_possible || 10) * 5)))`. -/
def toTask (a : Assignment) : Task :=
  { id := a.id
    name := a.name
    course_name := a.course_name
    description := jsOrS a.description "No description available"
    estimated_duration := max 25 (min 50 (jsRound (jsOrQ a.points_possible 10 * 5)))
    due_at := a.due_at
    priority := jsOrQ a.priority 5
    completed := false }

/-- Lines 140-184, the pure core of `generateDailyTasks`: sort a copy of
the list, take the top 5, convert to tasks. -/
def generateDailyTasks (assignmentsList : List Assignment) : List Task :=
  (topAssignments assignmentsList).map toTask

/-- Line 230: `Math.ceil(task.estimated_duration / pomodoroSettings.work_duration)`. -/
def sessionsNeeded (t : Task) : ℤ := jsCeil ((t.estimated_duration : ℚ) / 25)

/-- The three timer phases. -/
inductive TimerType where
  | work
  | short_break
  | long_break
deriving DecidableEq

/-- Pomodoro durations in seconds (fixed `pomodoroSettings`). -/
def workSecs : ℕ := 25 * 60

/-- Short-break duration in seconds. -/
def shortBreakSecs : ℕ := 5 * 60

/-- Long-break duration in seconds. -/
def longBreakSecs : ℕ := 15 * 60

/-- Timer component state. `timerHandle` models whether
`timerRef.current` holds a live interval (non-null). -/
structure TimerState where
  timeRemaining : ℕ
  isTimerRunning : Bool
  timerHandle : Bool
  timerType : TimerType
  sessionsCompleted : ℕ
  currentTaskIndex : ℕ
  dailyTasks : List Task
deriving DecidableEq

/-- Lines 187-254, the timer-completion effect: it fires only when
`timeRemaining === 0 && timerRef.current` (a live interval), clears the
interval and the running flag, then switches phase; completing a work
phase increments the session counter, chooses long break every 4th
session, and marks/advances the current task when the new session count
is a multiple of the task's session quota (`%` by 0 in JS yields `NaN`,
which never equals 0, so a zero quota never matches). -/
def completionEffect (s : TimerState) : TimerState :=
  if s.timeRemaining = 0 ∧ s.timerHandle then
    let s0 : TimerState := { s with timerHandle := false, isTimerRunning := false }
    match s0.timerType with
    | .work =>
      let n := s0.sessionsCompleted + 1
      let s1 : TimerState :=
        if n % 4 = 0 then
          { s0 with sessionsCompleted := n, timerType := .long_break,
                    timeRemaining := longBreakSecs }
        else
          { s0 with sessionsCompleted := n, timerType := .short_break,
                    timeRemaining := shortBreakSecs }
      if 0 < s1.dailyTasks.length ∧ s1.currentTaskIndex < s1.dailyTasks.length then
        match s1.dailyTasks.get? s1.currentTaskIndex with
        | some task =>
          if (sessionsNeeded task).toNat ≠ 0 ∧ n % (sessionsNeeded task).toNat = 0 then
            let s2 : TimerState :=
              { s1 with dailyTasks :=
                  s1.dailyTasks.set s1.currentTaskIndex { task with completed := true } }
            if s2.currentTaskIndex < s2.dailyTasks.length - 1 then
              { s2 with currentTaskIndex := s2.currentTaskIndex + 1 }
            else s2
          else s1
        | none => s1
      else s1
    | _ => { s0 with timerType := .work, timeRemaining := workSecs }
  else s

/-- Lines 257-273, the start/stop effect: it runs after the completion
effect in each render and synchronises the interval handle with the
running flag. -/
def startStopEffect (s : TimerState) : TimerState :=
  { s with timerHandle := s.isTimerRunning }

/-- One committed render: React runs the two effects in declaration
order (completion effect first). -/
def afterRender (s : TimerState) : TimerState :=
  startStopEffect (completionEffect s)

/-- Lines 305-308, `skipTimer`: `setTimeRemaining(0)`; if the value is
already 0 React bails out and no effect runs. -/
def skipTimer (s : TimerState) : TimerState :=
  if s.timeRemaining = 0 then s else afterRender { s with timeRemaining := 0 }

/-- Lines 283-285, `toggleTimer` (the Start/Pause button). -/
def toggleTimer (s : TimerState) : TimerState :=
  afterRender { s with isTimerRunning := !s.isTimerRunning }

/-- Duration in seconds of the current phase. -/
def phaseSecs (ty : TimerType) : ℕ :=
  match ty with
  | .work => workSecs
  | .short_break => shortBreakSecs
  | .long_break => longBreakSecs

/-- Lines 287-303, `resetTimer`: clear the interval, stop, reload the
current phase duration. -/
def resetTimer (s : TimerState) : TimerState :=
  afterRender { s with isTimerRunning := false, timerHandle := false,
                       timeRemaining := phaseSecs s.timerType }

/-- Lines 259-261, one interval tick: `Math.max(0, prev - 1)`; if the
value does not change React bails out and no effect runs. -/
def tick (s : TimerState) : TimerState :=
  if s.timerHandle then
    if s.timeRemaining = 0 then s
    else afterRender { s with timeRemaining := s.timeRemaining - 1 }
  else s

/-- Initial mount state: work phase, 25:00, paused, 0 sessions. -/
def initialTimerState (tasks : List Task) : TimerState :=
  { timeRemaining := workSecs
    isTimerRunning := false
    timerHandle := false
    timerType := .work
    sessionsCompleted := 0
    currentTaskIndex := 0
    dailyTasks := tasks }

end FocusPlanner

namespace Heap

/-- Lines 144-177 of `SimpleFocusPlanner.generateDailyTasks` as heap
operations: spread the source array into a fresh copy, sort that copy in
place, map the top 5 to tasks. -/
def runGenerateDailyTasks (h : Heap FocusPlanner.Assignment) (src : ℕ) :
    Heap FocusPlanner.Assignment × List FocusPlanner.Task :=
  let p := alloc h (readCell h src)
  let h2 := sortCell p.1 p.2 (fun a b => FocusPlanner.genCmpLe a b = true)
  (h2, ((readCell h2 p.2).take 5).map FocusPlanner.toTask)

end Heap

namespace PomodoroPage

/-- The urgency buckets of the Pomodoro page. -/
inductive Urgency where
  | high
  | medium
  | low
deriving DecidableEq

/-- Lines 48-61, `getUrgencyLevel`: days until due is
`Math.ceil((due - now) / 86400000)`; at most 2 days is high, at most 5
medium, otherwise low, and a null due date is low. The function reads
the clock ambiently (`const now = new Date()` at line 52); that ambient
read is modelled by the explicit argument `ambientNow`. -/
def getUrgencyLevel (dueDate : Option ℤ) (ambientNow : ℤ) : Urgency :=
  match dueDate with
  | none => .low
  | some due =>
    let daysUntilDue : ℤ := jsCeil (((due - ambientNow : ℤ) : ℚ) / (1000 * 60 * 60 * 24))
    if daysUntilDue ≤ 2 then .high
    else if daysUntilDue ≤ 5 then .medium
    else .low

end PomodoroPage

namespace AssignmentCard

/-- Lines 36-42 of `AssignmentCard.tsx`, `getPriorityLabel`: `!priority`
is true for `null` and for `0`, both giving "No Priority"; otherwise the
inclusive thresholds 10, 7, 4 select Urgent, High, Medium, else Low. -/
def getPriorityLabel (priority : Option ℚ) : String :=
  match priority with
  | none => "No Priority"
  | some p =>
    if p = 0 then "No Priority"
    else if 10 ≤ p then "Urgent"
    else if 7 ≤ p then "High"
    else if 4 ≤ p then "Medium"
    else "Low"

end AssignmentCard

namespace Recs

/-- Shift an assignment's due timestamp by `c` milliseconds (used to
state that the bucketer depends on the clock only through `due - now`). -/
def shiftDue (c : ℤ) (a : Assignment) : Assignment :=
  { a with due_at := a.due_at.map (· + c) }

/-- Shift every assignment inside a recommendation bucket. -/
def shiftRec (c : ℤ) (r : Recommendation) : Recommendation :=
  { r with assignments := r.assignments.map (shiftDue c) }

/-- Example record: due in one day, 5 points, priority 8. -/
def exA : Assignment :=
  { id := 1, name := "essay", description := "", due_at := some 86400000,
    points_possible := 5, priority := 8, course_id := 1, course_name := "hist" }

/-- Example record: no due date, 20 points, priority 3. -/
def exB : Assignment :=
  { id := 2, name := "project", description := "", due_at := none,
    points_possible := 20, priority := 3, course_id := 1, course_name := "hist" }

/-- Example record: no due date, exactly 10 points, priority 0. -/
def exP10 : Assignment :=
  { id := 1, name := "lab", description := "", due_at := none,
    points_possible := 10, priority := 0, course_id := 1, course_name := "chem" }

/-- Example record: no due date, 9 points, priority 0. -/
def exQ9 : Assignment :=
  { id := 1, name := "quiz", description := "", due_at := none,
    points_possible := 9, priority := 0, course_id := 1, course_name := "chem" }

/-- Example record: no due date, 3 points, priority 0. -/
def exQ3 : Assignment :=
  { id := 2, name := "reading", description := "", due_at := none,
    points_possible := 3, priority := 0, course_id := 1, course_name := "chem" }

/-- Example record: due in one day, 5 points, priority 0. -/
def exU : Assignment :=
  { id := 1, name := "worksheet", description := "", due_at := some 86400000,
    points_possible := 5, priority := 0, course_id := 1, course_name := "chem" }

end Recs

namespace Dashboard

/-- Scenario record 1: due in one day, 5 points. -/
def d1 : Assignment :=
  { id := 1, name := "a1", description := none, due_at := some 86400000,
    points_possible := some 5, course_id := 1, course_name := "c",
    priority := none, summary := none }

/-- Scenario record 2: due in ten days, 20 points. -/
def d2 : Assignment :=
  { id := 2, name := "a2", description := none, due_at := some 864000000,
    points_possible := some 20, course_id := 1, course_name := "c",
    priority := none, summary := none }

/-- Scenario record 3: no due date, 3 points. -/
def d3 : Assignment :=
  { id := 3, name := "a3", description := none, due_at := none,
    points_possible := some 3, course_id := 1, course_name := "c",
    priority := none, summary := none }

end Dashboard

namespace FocusPlanner

/-- Example assignment whose points value is present but zero. -/
def zeroPts : Assignment :=
  { id := 1, name := "z", description := none, due_at := none,
    points_possible := some 0, course_id := 1, course_name := "c",
    priority := none, summary := none }

/-- Example assignment worth five points. -/
def fivePts : Assignment :=
  { id := 2, name := "w", description := none, due_at := none,
    points_possible := some 5, course_id := 1, course_name := "c",
    priority := none, summary := none }

end FocusPlanner

/-!
Helper lemmas, followed by one theorem per specification claim.
-/

namespace Heap

/-- Allocation does not disturb existing cells. -/
theorem readCell_append_left {α} (h : Heap α) (xs : List α) (i : ℕ) (hi : i < h.length) :
    readCell (h ++ [xs]) i = readCell h i := by
  unfold readCell
  rw [List.getElem?_append_left hi]

/-- Reading a freshly allocated cell yields its contents. -/
theorem readCell_append_self {α} (h : Heap α) (xs : List α) :
    readCell (h ++ [xs]) h.length = xs := by
  unfold readCell
  rw [List.getElem?_concat_length]
  rfl

/-- Writing one cell does not disturb a different cell. -/
theorem readCell_set_ne {α} (h : Heap α) (i j : ℕ) (v : List α) (hne : j ≠ i) :
    readCell (h.set j v) i = readCell h i := by
  unfold readCell
  rw [List.getElem?_set_ne hne]

/-- Reading back a written cell yields the written value. -/
theorem readCell_set_self {α} (h : Heap α) (i : ℕ) (v : List α) (hi : i < h.length) :
    readCell (h.set i v) i = v := by
  unfold readCell
  rw [List.getElem?_set_self] <;> simp [hi]

end Heap

/-- Inserting an element of a class closed under `r` keeps the class
filter intact and puts the new element first. -/
theorem filter_orderedInsert_pos {α : Type} (r : α → α → Prop) [DecidableRel r] (P : α → Bool)
    (a : α) (hPa : P a = true) (hcap : ∀ b, P b = true → r a b) :
    ∀ l : List α, (List.orderedInsert r a l).filter P = a :: l.filter P := by
  intro l
  induction l with
  | nil => simp [List.orderedInsert, hPa]
  | cons b t ih =>
    by_cases hr : r a b
    · simp [List.orderedInsert, hr, hPa]
    · have hPb : P b = false := by
        cases h : P b
        · rfl
        · exact absurd (hcap b h) hr
      simp [List.orderedInsert, hr, hPb, ih]

/-- Inserting an element outside the class leaves the class filter intact. -/
theorem filter_orderedInsert_neg {α : Type} (r : α → α → Prop) [DecidableRel r] (P : α → Bool)
    (a : α) (hPa : P a = false) :
    ∀ l : List α, (List.orderedInsert r a l).filter P = l.filter P := by
  intro l
  induction l with
  | nil => simp [List.orderedInsert, hPa]
  | cons b t ih =>
    by_cases hr : r a b
    · simp [List.orderedInsert, hr, hPa]
    · cases hPb : P b
      · simp [List.orderedInsert, hr, hPb, ih]
      · simp [List.orderedInsert, hr, hPb, ih]

/-- Stability on an equivalence class: if all class members are mutually
related by `r`, insertion sort preserves the class subsequence exactly. -/
theorem filter_insertionSort {α : Type} (r : α → α → Prop) [DecidableRel r] (P : α → Bool)
    (hcap : ∀ a b, P a = true → P b = true → r a b) :
    ∀ l : List α, (List.insertionSort r l).filter P = l.filter P := by
  intro l
  induction l with
  | nil => rfl
  | cons a t ih =>
    rw [List.insertionSort]
    cases h : P a
    · rw [filter_orderedInsert_neg r P a h, ih, List.filter_cons_of_neg]
      simp [h]
    · rw [filter_orderedInsert_pos r P a h (fun b hb => hcap a b h hb), ih,
        List.filter_cons_of_pos]
      simp [h]

namespace Dashboard

/-- The due-date sort key is the top element exactly for missing due dates. -/
theorem dueKey_eq_top_iff (a : Assignment) : dueKey a = ⊤ ↔ a.due_at = none := by
  unfold dueKey
  cases h : a.due_at with
  | none => simp
  | some t => simp [WithTop.coe_ne_top]

/-- A list sorted by the due-date key splits into its records with a due
date followed by its records without one. -/
theorem sorted_split_none :
    ∀ out : List Assignment, List.Sorted dueDateLe out →
      out = out.filter (fun a => a.due_at.isSome) ++ out.filter (fun a => a.due_at.isNone) := by
  intro out
  induction out with
  | nil => simp
  | cons a t ih =>
    intro hs
    rw [List.sorted_cons] at hs
    cases hsome : a.due_at.isSome
    · have hnone : a.due_at = none := by
        cases h : a.due_at
        · rfl
        · rw [h] at hsome; simp at hsome
      have htop : dueKey a = ⊤ := (dueKey_eq_top_iff a).mpr hnone
      have hall : ∀ b ∈ t, b.due_at = none := by
        intro b hb
        have := hs.1 b hb
        unfold dueDateLe at this
        rw [htop] at this
        exact (dueKey_eq_top_iff b).mp (top_le_iff.mp this)
      have h1 : (a :: t).filter (fun x => x.due_at.isSome) = [] := by
        rw [List.filter_eq_nil_iff]
        intro b hb
        rcases List.mem_cons.mp hb with rfl | hb
        · simp [hnone]
        · simp [hall b hb]
      have h2 : (a :: t).filter (fun x => x.due_at.isNone) = a :: t := by
        rw [List.filter_eq_self]
        intro b hb
        rcases List.mem_cons.mp hb with rfl | hb
        · simp [hnone]
        · simp [hall b hb]
      rw [h1, h2]
      rfl
    · have h1 : (a :: t).filter (fun x => x.due_at.isSome) =
          a :: t.filter (fun x => x.due_at.isSome) := by
        rw [List.filter_cons_of_pos]
        simp [hsome]
      have h2 : (a :: t).filter (fun x => x.due_at.isNone) =
          t.filter (fun x => x.due_at.isNone) := by
        rw [List.filter_cons_of_neg]
        simp only [Option.isNone_iff_eq_none]
        simpa using Option.isSome_iff_ne_none.mp hsome
      rw [h1, h2, List.cons_append]
      exact congrArg _ (ih hs.2)

end Dashboard

namespace Recs

/-- Shifting the due timestamp shifts the comparator key, for records
that have a due date. -/
theorem dueVal_shiftDue (c : ℤ) (a : Assignment) (ha : a.due_at.isSome = true) :
    dueVal (shiftDue c a) = dueVal a + c := by
  unfold dueVal shiftDue
  cases h : a.due_at with
  | none => rw [h] at ha; simp at ha
  | some t => simp [h]

/-- The due-date presence filter commutes with shifting. -/
theorem awd_shift (c : ℤ) (l : List Assignment) :
    assignmentsWithDueDates (l.map (shiftDue c)) =
      (assignmentsWithDueDates l).map (shiftDue c) := by
  unfold assignmentsWithDueDates
  rw [List.filter_map]
  congr 1
  apply List.filter_congr
  intro a _
  show (shiftDue c a).due_at.isSome = a.due_at.isSome
  unfold shiftDue
  simp

/-- The due-date sort commutes with shifting. -/
theorem sortedByDueDate_shift (c : ℤ) (l : List Assignment) :
    sortedByDueDate (l.map (shiftDue c)) = (sortedByDueDate l).map (shiftDue c) := by
  unfold sortedByDueDate
  rw [awd_shift]
  symm
  apply List.map_insertionSort
  intro a ha b hb
  have hA : a.due_at.isSome = true := by simpa using (List.mem_filter.mp ha).2
  have hB : b.due_at.isSome = true := by simpa using (List.mem_filter.mp hb).2
  unfold dueLe
  rw [dueVal_shiftDue c a hA, dueVal_shiftDue c b hB]
  exact (add_le_add_iff_right c).symm

/-- The priority sort ignores due dates and commutes with shifting. -/
theorem sortedByPriority_shift (c : ℤ) (l : List Assignment) :
    sortedByPriority (l.map (shiftDue c)) = (sortedByPriority l).map (shiftDue c) := by
  unfold sortedByPriority
  symm
  apply List.map_insertionSort
  intro a _ b _
  exact Iff.rfl

/-- The urgent bucket depends on the clock only through `due - now`. -/
theorem urgent_shift (c : ℤ) (l : List Assignment) (now : ℤ) :
    urgentAssignments (l.map (shiftDue c)) (now + c) =
      (urgentAssignments l now).map (shiftDue c) := by
  unfold urgentAssignments
  rw [sortedByDueDate_shift, List.filter_map, ← List.map_take]
  refine congrArg (List.map (shiftDue c)) (congrArg (List.take 3) ?_)
  apply List.filter_congr
  intro a _
  show ((shiftDue c a).due_at.isSome &&
      decide (dueVal (shiftDue c a) - (now + c) < 3 * msPerDay)) =
    (a.due_at.isSome && decide (dueVal a - now < 3 * msPerDay))
  cases hA : a.due_at.isSome
  · have : (shiftDue c a).due_at.isSome = false := by
      unfold shiftDue
      simpa using hA
    rw [this]
    simp
  · have hs : (shiftDue c a).due_at.isSome = true := by
      unfold shiftDue
      simpa using hA
    rw [hs, dueVal_shiftDue c a hA]
    simp only [Bool.true_and]
    rw [decide_eq_decide]
    constructor <;> intro h <;> linarith

/-- The high-impact bucket is unaffected by shifting due dates. -/
theorem high_shift (c : ℤ) (l : List Assignment) :
    highPriorityAssignments (l.map (shiftDue c)) =
      (highPriorityAssignments l).map (shiftDue c) := by
  unfold highPriorityAssignments
  rw [sortedByPriority_shift, List.filter_map, ← List.map_take]
  rfl

/-- The quick-win bucket is unaffected by shifting due dates. -/
theorem quick_shift (c : ℤ) (l : List Assignment) :
    quickWins (l.map (shiftDue c)) = (quickWins l).map (shiftDue c) := by
  unfold quickWins
  rw [List.filter_map, ← List.map_take]
  rfl

/-- The whole bucketing pass depends on the clock only through the
differences `due - now`: shifting every due date and the clock together
shifts the output pointwise. -/
theorem bucketize_shift (c : ℤ) (l : List Assignment) (now : ℤ) :
    generatedRecommendations (l.map (shiftDue c)) (now + c) =
      (generatedRecommendations l now).map (shiftRec c) := by
  unfold generatedRecommendations
  rw [urgent_shift, high_shift, quick_shift]
  simp only [List.length_map, List.map_append]
  split_ifs <;> simp [shiftRec]

end Recs

namespace PomodoroPage

/-- Unfolding of the urgency classifier at a present due date. -/
theorem getUrgencyLevel_some (due now : ℤ) :
    getUrgencyLevel (some due) now =
      (if jsCeil (((due - now : ℤ) : ℚ) / (1000 * 60 * 60 * 24)) ≤ 2 then .high
       else if jsCeil (((due - now : ℤ) : ℚ) / (1000 * 60 * 60 * 24)) ≤ 5 then .medium
       else .low) := rfl

end PomodoroPage

/-- C1 (amended): the bucketing pass fills its buckets in the fixed order
Urgent, High Impact, Quick Wins, and a bucket with no qualifying records
is omitted entirely (never emitted empty); each bucket is computed
independently from the full input list, so placement in an earlier
bucket does not exclude an id from later buckets. -/
theorem bucket_pass_nonempty_ordered : ∀ (l : List Recs.Assignment) (now : ℤ),
    (∀ r ∈ Recs.generatedRecommendations l now, r.assignments ≠ []) ∧
    ((Recs.generatedRecommendations l now).map Recs.Recommendation.title).Sublist
      ["Urgent Assignments", "High Impact Assignments", "Quick Wins"] := by
  intro l now
  unfold Recs.generatedRecommendations
  split_ifs with h1 h2 h3 <;>
    refine ⟨?_, ?_⟩ <;>
      simp_all [List.length_pos, List.Sublist.cons, List.Sublist.cons₂]

/-- C1 witness: a non-empty Urgent bucket produced by a concrete run. -/
theorem bucket_pass_nonempty_witness :
    ({ title := "Urgent Assignments",
       description := "These assignments are due soon and should be prioritized",
       assignments := [Recs.exA], icon := "🔥" } : Recs.Recommendation).assignments ≠ [] :=
  (bucket_pass_nonempty_ordered [Recs.exA] 0).1 _ (by decide)

/-- C1 counterexample: one assignment due in a day with priority 8 and 5
points is placed in all three buckets of the same pass, so an id can
appear in more than one bucket. -/
theorem bucket_pass_double_placement :
    ((Recs.generatedRecommendations [Recs.exA] 0).map fun r =>
        (r.title, r.assignments.map Recs.Assignment.id)) =
      [("Urgent Assignments", [1]), ("High Impact Assignments", [1]), ("Quick Wins", [1])] ∧
    ((Recs.generatedRecommendations [Recs.exA] 0).countP fun r =>
        r.assignments.any fun a => a.id == 1) = 3 := by
  refine ⟨by decide, by decide⟩

/-- C2 (amended): the second-pass bucket is drawn from the full list
sorted descending by `priority` (not points, and with no exclusion of
ids used by the first pass), keeps exactly the records with priority
above 7, and is truncated to the first 3. -/
theorem high_bucket_priority_gt7_sorted_capped : ∀ l : List Recs.Assignment,
    (∀ a ∈ Recs.highPriorityAssignments l, 7 < a.priority) ∧
    List.Sorted Recs.prioGe (Recs.highPriorityAssignments l) ∧
    (Recs.highPriorityAssignments l).length ≤ 3 := by
  intro l
  refine ⟨?_, ?_, List.length_take_le 3 _⟩
  · intro a ha
    have hmem := List.take_subset 3 _ ha
    have := (List.mem_filter.mp hmem).2
    exact of_decide_eq_true this
  · exact ((List.sorted_insertionSort Recs.prioGe l).filter _).sublist (List.take_sublist 3 _)

/-- C2 witness: a concrete member of the second-pass bucket has priority
above 7. -/
theorem high_bucket_priority_witness : 7 < Recs.exA.priority :=
  (high_bucket_priority_gt7_sorted_capped [Recs.exA]).1 Recs.exA (by decide)

/-- C2 counterexample: with one urgent 5-point priority-8 record and one
unused 20-point priority-3 record, the High Impact bucket contains the
urgent low-point record and omits the high-point one — the code filters
by priority, not points, and does not exclude used ids. -/
theorem high_bucket_ignores_points_and_used_ids :
    ((Recs.generatedRecommendations [Recs.exA, Recs.exB] 0).map fun r =>
        (r.title, r.assignments.map Recs.Assignment.id)) =
      [("Urgent Assignments", [1]), ("High Impact Assignments", [1]), ("Quick Wins", [1])] ∧
    Recs.exA.points_possible < 10 ∧ 10 < Recs.exB.points_possible := by
  refine ⟨by decide, by decide, by decide⟩

/-- C3 (amended): the Quick Wins bucket consists of the first 3 records
of the full input list, in input order (a sublist of the input, not
re-sorted ascending by points), whose points lie strictly between 0 and
10 — the upper bound 10 is excluded and earlier buckets exclude nothing. -/
theorem quick_bucket_strict_bounds_input_order : ∀ l : List Recs.Assignment,
    (Recs.quickWins l).Sublist l ∧ (Recs.quickWins l).length ≤ 3 ∧
    ∀ a ∈ Recs.quickWins l, 0 < a.points_possible ∧ a.points_possible < 10 := by
  intro l
  refine ⟨(List.take_sublist 3 _).trans (List.filter_sublist l), List.length_take_le 3 _, ?_⟩
  intro a ha
  have hmem := List.take_subset 3 _ ha
  have hp := (List.mem_filter.mp hmem).2
  simp only [Bool.and_eq_true, decide_eq_true_eq] at hp
  exact ⟨hp.2, hp.1⟩

/-- C3 witness: a concrete Quick Wins member has points strictly between
0 and 10. -/
theorem quick_bucket_strict_bounds_witness :
    0 < Recs.exA.points_possible ∧ Recs.exA.points_possible < 10 :=
  (quick_bucket_strict_bounds_input_order [Recs.exA]).2.2 Recs.exA (by decide)

/-- C3 counterexample: a 10-point record is excluded from Quick Wins
(strict upper bound, no bucket emitted at all), two qualifying records
keep input order 9-then-3 instead of ascending points, and a record
already placed in Urgent appears in Quick Wins as well. -/
theorem quick_bucket_boundary_and_order :
    Recs.generatedRecommendations [Recs.exP10] 0 = [] ∧
    Recs.exP10.points_possible = 10 ∧
    (Recs.quickWins [Recs.exQ9, Recs.exQ3]).map Recs.Assignment.id = [1, 2] ∧
    Recs.exQ3.points_possible < Recs.exQ9.points_possible ∧
    ((Recs.generatedRecommendations [Recs.exU] 0).map fun r =>
        (r.title, r.assignments.map Recs.Assignment.id)) =
      [("Urgent Assignments", [1]), ("Quick Wins", [1])] := by
  refine ⟨by decide, by decide, by decide, by decide, by decide⟩

/-- C4 evidence: from the paused initial state {work, 25:00, paused, 0
sessions}, `skip` only zeroes the remaining time — the completion effect
is guarded by a live interval handle (`timeRemaining === 0 &&
timerRef.current`), so no phase change or session increment ever
happens; eight consecutive skips still leave 0 sessions in the work
phase, and `long_break` is never reached. By contrast, a skip pressed
while the timer is running does complete the work phase. -/
theorem skip_while_paused_does_not_complete :
    (∀ tasks : List FocusPlanner.Task,
      FocusPlanner.skipTimer (FocusPlanner.initialTimerState tasks) =
        { FocusPlanner.initialTimerState tasks with timeRemaining := 0 }) ∧
    (FocusPlanner.skipTimer^[8] (FocusPlanner.initialTimerState [])).sessionsCompleted = 0 ∧
    (FocusPlanner.skipTimer^[8] (FocusPlanner.initialTimerState [])).timerType = .work ∧
    (FocusPlanner.skipTimer (FocusPlanner.toggleTimer
        (FocusPlanner.initialTimerState []))).sessionsCompleted = 1 ∧
    (FocusPlanner.skipTimer (FocusPlanner.toggleTimer
        (FocusPlanner.initialTimerState []))).timerType = .short_break := by
  refine ⟨fun tasks => rfl, by decide, by decide, by decide, by decide⟩

/-- C5 (amended): `getPriorityLabel` maps an absent priority and the
present value 0 to "No Priority" (JavaScript `!priority` is true for
both), and otherwise uses inclusive lower thresholds: at least 10 gives
"Urgent" (no upper bound), at least 7 gives "High", at least 4 gives
"Medium", and any other present non-zero value gives "Low". -/
theorem priority_label_thresholds :
    AssignmentCard.getPriorityLabel none = "No Priority" ∧
    AssignmentCard.getPriorityLabel (some 0) = "No Priority" ∧
    (∀ p : ℚ, 10 ≤ p → AssignmentCard.getPriorityLabel (some p) = "Urgent") ∧
    (∀ p : ℚ, 7 ≤ p → p < 10 → AssignmentCard.getPriorityLabel (some p) = "High") ∧
    (∀ p : ℚ, 4 ≤ p → p < 7 → AssignmentCard.getPriorityLabel (some p) = "Medium") ∧
    (∀ p : ℚ, p ≠ 0 → p < 4 → AssignmentCard.getPriorityLabel (some p) = "Low") := by
  refine ⟨rfl, by norm_num [AssignmentCard.getPriorityLabel], ?_, ?_, ?_, ?_⟩
  · intro p hp
    have h0 : ¬p = 0 := by intro h; rw [h] at hp; norm_num at hp
    simp only [AssignmentCard.getPriorityLabel]
    rw [if_neg h0, if_pos hp]
  · intro p h7 h10
    have h0 : ¬p = 0 := by intro h; rw [h] at h7; norm_num at h7
    simp only [AssignmentCard.getPriorityLabel]
    rw [if_neg h0, if_neg (not_le.mpr h10), if_pos h7]
  · intro p h4 h7
    have h0 : ¬p = 0 := by intro h; rw [h] at h4; norm_num at h4
    simp only [AssignmentCard.getPriorityLabel]
    rw [if_neg h0, if_neg (by linarith : ¬(10:ℚ) ≤ p), if_neg (not_le.mpr h7), if_pos h4]
  · intro p h0 h4
    simp only [AssignmentCard.getPriorityLabel]
    rw [if_neg h0, if_neg (by linarith : ¬(10:ℚ) ≤ p), if_neg (by linarith : ¬(7:ℚ) ≤ p),
      if_neg (not_le.mpr h4)]

/-- C5 witness: priority 6 is labelled "Medium". -/
theorem priority_label_thresholds_witness :
    AssignmentCard.getPriorityLabel (some 6) = "Medium" :=
  priority_label_thresholds.2.2.2.2.1 6 (by norm_num) (by norm_num)

/-- C5 counterexample: the present priority value 0 is labelled
"No Priority", not "Low" as the claim states. -/
theorem priority_label_zero_not_low :
    AssignmentCard.getPriorityLabel (some 0) ≠ "Low" ∧
    AssignmentCard.getPriorityLabel (some 0) = "No Priority" := by
  refine ⟨by decide, by decide⟩

/-- C6: the dashboard `due_date` sort is a permutation of the filtered
input, ascending in the due-date key (missing due dates compare as the
top element, hence land after every record with a due date), and keeps
the no-due-date records in their original relative order; the spec
scenario [due +1d, due +10d, no due] sorts to ids [1, 2, 3]. -/
theorem due_date_sort_ascending_stable_nones_last :
    (∀ (l : List Dashboard.Assignment) (c : Option ℤ) (q : String),
      (Dashboard.filteredAssignments l c q .due_date).Perm
        (l.filter (Dashboard.passesFilter c q)) ∧
      List.Sorted Dashboard.dueDateLe (Dashboard.filteredAssignments l c q .due_date) ∧
      Dashboard.filteredAssignments l c q .due_date =
        (Dashboard.filteredAssignments l c q .due_date).filter (fun a => a.due_at.isSome) ++
        (l.filter (Dashboard.passesFilter c q)).filter (fun a => a.due_at.isNone)) ∧
    (Dashboard.filteredAssignments [Dashboard.d1, Dashboard.d2, Dashboard.d3]
        none "" .due_date).map Dashboard.Assignment.id = [1, 2, 3] := by
  constructor
  · intro l c q
    have hcap : ∀ a b : Dashboard.Assignment,
        (fun x : Dashboard.Assignment => x.due_at.isNone) a = true →
        (fun x : Dashboard.Assignment => x.due_at.isNone) b = true →
        Dashboard.sortRel .due_date a b := by
      intro a b ha hb
      simp only [Option.isNone_iff_eq_none] at ha hb
      show Dashboard.dueDateLe a b
      unfold Dashboard.dueDateLe
      rw [(Dashboard.dueKey_eq_top_iff a).mpr ha, (Dashboard.dueKey_eq_top_iff b).mpr hb]
    have hsorted : List.Sorted Dashboard.dueDateLe
        (Dashboard.filteredAssignments l c q .due_date) :=
      List.sorted_insertionSort Dashboard.dueDateLe _
    refine ⟨List.perm_insertionSort _ _, hsorted, ?_⟩
    have hsplit := Dashboard.sorted_split_none _ hsorted
    have hpres : (Dashboard.filteredAssignments l c q .due_date).filter
        (fun a => a.due_at.isNone) =
        (l.filter (Dashboard.passesFilter c q)).filter (fun a => a.due_at.isNone) :=
      filter_insertionSort (Dashboard.sortRel .due_date) _ hcap _
    exact hsplit.trans (by rw [hpres])
  · decide

/-- C7 (amended): modelling the ambient `new Date()` reads as an explicit
clock argument, the urgency classifier and the bucketing pass are pure
deterministic functions of their inputs together with that clock, and
they depend on the clock only through the differences due − now: a null
due date is "low" at every clock instant, and shifting all due
timestamps and the clock by the same amount leaves the urgency label
unchanged and shifts the bucketing output pointwise. -/
theorem classification_clock_dependence :
    (∀ t : ℤ, PomodoroPage.getUrgencyLevel none t = .low) ∧
    (∀ d t c : ℤ, PomodoroPage.getUrgencyLevel (some (d + c)) (t + c) =
        PomodoroPage.getUrgencyLevel (some d) t) ∧
    (∀ (l : List Recs.Assignment) (now c : ℤ),
        Recs.generatedRecommendations (l.map (Recs.shiftDue c)) (now + c) =
          (Recs.generatedRecommendations l now).map (Recs.shiftRec c)) := by
  refine ⟨fun _ => rfl, ?_, ?_⟩
  · intro d t c
    rw [PomodoroPage.getUrgencyLevel_some, PomodoroPage.getUrgencyLevel_some,
      show d + c - (t + c) = d - t from by ring]
  · intro l now c
    exact Recs.bucketize_shift c l now

/-- C7 counterexample: two invocations of `getUrgencyLevel` with the
identical declared input (the same due date) but different ambient clock
readings return different urgency levels — determinism over the declared
parameters alone fails because `new Date()` is read inside the function. -/
theorem urgency_depends_on_ambient_clock :
    PomodoroPage.getUrgencyLevel (some 0) 0 = .high ∧
    PomodoroPage.getUrgencyLevel (some 0) (-864000000) = .low ∧
    PomodoroPage.getUrgencyLevel (some 0) 0 ≠
      PomodoroPage.getUrgencyLevel (some 0) (-864000000) := by
  have h1 : PomodoroPage.getUrgencyLevel (some 0) 0 = .high := by
    rw [PomodoroPage.getUrgencyLevel_some]
    norm_num [jsCeil]
  have h2 : PomodoroPage.getUrgencyLevel (some 0) (-864000000) = .low := by
    rw [PomodoroPage.getUrgencyLevel_some]
    norm_num [jsCeil]
  refine ⟨h1, h2, ?_⟩
  rw [h1, h2]
  decide

/-- C8: the filter/sort pipeline and the daily-task generator never
mutate the source array. In the heap model the in-place sort acts on a
freshly allocated array (the `.filter` result, respectively the spread
copy `[...assignmentsList]`), so after the run the source cell holds
exactly its original records in their original order, and the returned
view equals the pure derivation from the source contents. -/
theorem view_pipelines_preserve_source_array :
    (∀ (h : Heap Dashboard.Assignment) (src : ℕ) (c : Option ℤ) (q : String)
       (k : Dashboard.SortKey), src < h.length →
       Heap.readCell (Heap.runFilteredAssignments h src c q k).1 src = Heap.readCell h src ∧
       (Heap.runFilteredAssignments h src c q k).2 =
         Dashboard.filteredAssignments (Heap.readCell h src) c q k) ∧
    (∀ (h : Heap FocusPlanner.Assignment) (src : ℕ), src < h.length →
       Heap.readCell (Heap.runGenerateDailyTasks h src).1 src = Heap.readCell h src ∧
       (Heap.runGenerateDailyTasks h src).2 =
         FocusPlanner.generateDailyTasks (Heap.readCell h src)) := by
  constructor
  · intro h src c q k hsrc
    have hne : src ≠ h.length := Nat.ne_of_lt hsrc
    simp only [Heap.runFilteredAssignments, Heap.alloc, Heap.sortCell]
    rw [Heap.readCell_append_self,
      Heap.readCell_set_ne _ _ _ _ (Ne.symm hne),
      Heap.readCell_append_left _ _ _ hsrc,
      Heap.readCell_set_self _ _ _ (by simp)]
    exact ⟨rfl, rfl⟩
  · intro h src hsrc
    have hne : src ≠ h.length := Nat.ne_of_lt hsrc
    simp only [Heap.runGenerateDailyTasks, Heap.alloc, Heap.sortCell]
    rw [Heap.readCell_append_self,
      Heap.readCell_set_ne _ _ _ _ (Ne.symm hne),
      Heap.readCell_append_left _ _ _ hsrc,
      Heap.readCell_set_self _ _ _ (by simp)]
    exact ⟨rfl, rfl⟩

/-- C8 witness: both pipelines run on a concrete one-cell heap leave the
source cell unchanged and return the pure derivation. -/
theorem view_pipelines_preserve_source_witness :
    (Heap.readCell (Heap.runFilteredAssignments [[]] 0 none "" .priority).1 0 =
       Heap.readCell ([[]] : Heap Dashboard.Assignment) 0 ∧
     (Heap.runFilteredAssignments [[]] 0 none "" .priority).2 =
       Dashboard.filteredAssignments
         (Heap.readCell ([[]] : Heap Dashboard.Assignment) 0) none "" .priority) ∧
    (Heap.readCell (Heap.runGenerateDailyTasks [[]] 0).1 0 =
       Heap.readCell ([[]] : Heap FocusPlanner.Assignment) 0 ∧
     (Heap.runGenerateDailyTasks [[]] 0).2 =
       FocusPlanner.generateDailyTasks
         (Heap.readCell ([[]] : Heap FocusPlanner.Assignment) 0)) :=
  ⟨view_pipelines_preserve_source_array.1 [[]] 0 none "" .priority (by decide),
   view_pipelines_preserve_source_array.2 [[]] 0 (by decide)⟩

/-- C9: for both dashboard fetches, a failed call (rejection or non-2xx,
both routed to the same catch) sets the user-visible error string, halts
the loading flag of the affected view, and leaves both previously held
collections untouched; a successful call replaces the affected
collection wholesale with the response data and touches nothing else.
The steps are one-shot: no retry exists in the model. -/
theorem fetch_steps_error_and_atomic_replacement :
    ∀ (s : Dashboard.FetchState) (cs : List Dashboard.Course)
      (as : List Dashboard.Assignment),
    (Dashboard.fetchCoursesStep s .failure).courses = s.courses ∧
    (Dashboard.fetchCoursesStep s .failure).assignments = s.assignments ∧
    (Dashboard.fetchCoursesStep s .failure).loading = s.loading ∧
    (Dashboard.fetchCoursesStep s .failure).error = some "Failed to load courses" ∧
    (Dashboard.fetchCoursesStep s (.ok cs)).courses = cs ∧
    (Dashboard.fetchCoursesStep s (.ok cs)).assignments = s.assignments ∧
    (Dashboard.fetchCoursesStep s (.ok cs)).error = s.error ∧
    (Dashboard.fetchAssignmentsStep s .failure).assignments = s.assignments ∧
    (Dashboard.fetchAssignmentsStep s .failure).courses = s.courses ∧
    (Dashboard.fetchAssignmentsStep s .failure).error = some "Failed to load assignments" ∧
    (Dashboard.fetchAssignmentsStep s .failure).loading = false ∧
    (Dashboard.fetchAssignmentsStep s (.ok as)).assignments = as ∧
    (Dashboard.fetchAssignmentsStep s (.ok as)).courses = s.courses ∧
    (Dashboard.fetchAssignmentsStep s (.ok as)).error = s.error ∧
    (Dashboard.fetchAssignmentsStep s (.ok as)).loading = false :=
  fun _ _ _ =>
    ⟨rfl, rfl, rfl, rfl, rfl, rfl, rfl, rfl, rfl, rfl, rfl, rfl, rfl, rfl, rfl⟩

/-- C10 (amended): every generated task's estimated duration is
`max(25, min(50, round((points || 10) * 5)))` — where the JavaScript
`||` makes an absent or zero points value default to 10 — hence lies in
[25, 50], and the session quota `ceil(duration / 25)` is exactly 1 or 2. -/
theorem task_duration_clamped_sessions_bounded :
    ∀ (l : List FocusPlanner.Assignment) (t : FocusPlanner.Task),
    t ∈ FocusPlanner.generateDailyTasks l →
    (25 ≤ t.estimated_duration ∧ t.estimated_duration ≤ 50) ∧
    (FocusPlanner.sessionsNeeded t = 1 ∨ FocusPlanner.sessionsNeeded t = 2) := by
  intro l t ht
  obtain ⟨a, _, rfl⟩ := List.mem_map.mp ht
  have h25 : 25 ≤ (FocusPlanner.toTask a).estimated_duration := le_max_left _ _
  have h50 : (FocusPlanner.toTask a).estimated_duration ≤ 50 :=
    max_le (by norm_num) (min_le_left _ _)
  refine ⟨⟨h25, h50⟩, ?_⟩
  have hq25 : (25 : ℚ) ≤ ((FocusPlanner.toTask a).estimated_duration : ℚ) := by
    exact_mod_cast h25
  have hq50 : ((FocusPlanner.toTask a).estimated_duration : ℚ) ≤ 50 := by
    exact_mod_cast h50
  have h1 : 1 ≤ FocusPlanner.sessionsNeeded (FocusPlanner.toTask a) := by
    unfold FocusPlanner.sessionsNeeded jsCeil
    rw [Int.le_ceil_iff]
    push_cast
    rw [lt_div_iff₀ (by norm_num : (0:ℚ) < 25)]
    linarith
  have h2 : FocusPlanner.sessionsNeeded (FocusPlanner.toTask a) ≤ 2 := by
    unfold FocusPlanner.sessionsNeeded jsCeil
    rw [Int.ceil_le]
    rw [div_le_iff₀ (by norm_num : (0:ℚ) < 25)]
    push_cast
    linarith
  omega

/-- C10 witness: the task generated from a five-point assignment sits in
the clamp interval with a session quota of 1 or 2. -/
theorem task_duration_clamped_witness :
    (25 ≤ (FocusPlanner.toTask FocusPlanner.fivePts).estimated_duration ∧
     (FocusPlanner.toTask FocusPlanner.fivePts).estimated_duration ≤ 50) ∧
    (FocusPlanner.sessionsNeeded (FocusPlanner.toTask FocusPlanner.fivePts) = 1 ∨
     FocusPlanner.sessionsNeeded (FocusPlanner.toTask FocusPlanner.fivePts) = 2) :=
  task_duration_clamped_sessions_bounded [FocusPlanner.fivePts]
    (FocusPlanner.toTask FocusPlanner.fivePts)
    (by simp [FocusPlanner.generateDailyTasks, FocusPlanner.topAssignments,
      FocusPlanner.sortedAssignments, List.insertionSort, List.orderedInsert])

/-- C10 counterexample: for a present points value of 0 the code's
JavaScript `||` default kicks in (0 is falsy) and the generated duration
is 50, while the claim's formula — which defaults only absent points —
would give round(0·5) clamped to 25. -/
theorem task_duration_zero_points_uses_default :
    (FocusPlanner.generateDailyTasks [FocusPlanner.zeroPts]).map
      FocusPlanner.Task.estimated_duration = [50] ∧
    max 25 (min 50 (jsRound ((0 : ℚ) * 5))) = 25 := by
  constructor
  · show [(FocusPlanner.toTask FocusPlanner.zeroPts).estimated_duration] = [50]
    norm_num [FocusPlanner.toTask, jsOrQ, jsRound, FocusPlanner.zeroPts]
  · norm_num [jsRound]
